import Mathlib

/-!
Shallow embedding of the analytical core of `src/streamlit_app.py`
(zinc-consumption forecasting app): data loading and date normalization
(`load_data`), monthly aggregation and inner merge
(`calculate_monthly_data`), descriptive statistics computed in `main`
(lines 106-108), the SARIMA forecast wrapper (`sarima_forecast`), the
forecast table and stock recommendations built in `main` (lines 399-404
and 460-474), and the coefficient-of-variation interpretation rules
(lines 481-504).

Quantities are modelled as rationals where the Python code does exact
float arithmetic on ledger data, and as reals where a square root is
involved (standard deviation).  A pandas `NaN` result is modelled as
`Option.none`.  Calendar periods (pandas `Period('M')`) are modelled as
natural numbers `year * 12 + (month - 1)`.
-/

/-- Calendar date as parsed by `pd.to_datetime` in `load_data`. -/
structure Tanggal where
  year : ℕ
  month : ℕ
  day : ℕ
deriving DecidableEq, Repr

/-- Gregorian leap-year rule used by pandas date arithmetic. -/
def isLeapYear (y : ℕ) : Bool :=
  (y % 4 == 0 && y % 100 != 0) || (y % 400 == 0)

/-- Days in a month of a given year (Gregorian calendar). -/
def daysInMonth (y m : ℕ) : ℕ :=
  if m = 2 then (if isLeapYear y then 29 else 28)
  else if m = 4 ∨ m = 6 ∨ m = 9 ∨ m = 11 then 30
  else 31

/-- Parsing of a mutation-ledger date with `format='%d/%m/%Y'`
(`load_data`, line 23): the four-digit year is taken as written. -/
def parse_dmY (d m y : ℕ) : Tanggal := ⟨y, m, d⟩

/-- Parsing of a production-ledger date with `format='%d/%m/%y'`
(`load_data`, line 27): pandas maps a two-digit year `yy ≤ 68` to
`2000 + yy` and `yy ≥ 69` to `1900 + yy`. -/
def parse_dmy2 (d m yy : ℕ) : Tanggal :=
  ⟨if yy ≤ 68 then 2000 + yy else 1900 + yy, m, d⟩

/-- Effect of `pd.DateOffset(years=n)`: the year is advanced by `n` and
the day is clamped to the length of the target month. -/
def dateOffsetYears (n : ℕ) (t : Tanggal) : Tanggal :=
  ⟨t.year + n, t.month, min t.day (daysInMonth (t.year + n) t.month)⟩

/-- Date of a mutation-ledger record after `load_data`: parsed with a
four-digit year and left untouched. -/
def load_zinc_tanggal (d m y : ℕ) : Tanggal := parse_dmY d m y

/-- Date of a production-ledger record after `load_data` (lines 27-31):
parsed with a two-digit year, then shifted by `pd.DateOffset(years=100)`
whenever the parsed year is before 2000. -/
def load_prod_tanggal (d m yy : ℕ) : Tanggal :=
  let t := parse_dmy2 d m yy
  if t.year < 2000 then dateOffsetYears 100 t else t

/-- Row of the mutation ledger `df_zinc` (columns used by the core). -/
structure MutasiRow where
  tanggal : Tanggal
  debet : ℚ
  kredit : ℚ
deriving DecidableEq, Repr

/-- Row of the production ledger `df_prod` (columns used by the core). -/
structure ProduksiRow where
  tanggal : Tanggal
  kg_shift1 : ℚ
  kg_shift2 : ℚ
  kg_shift3 : ℚ
deriving DecidableEq, Repr

/-- Monthly period key `dt.to_period('M')` of a date, encoded as
`year * 12 + (month - 1)`. -/
def toPeriodM (t : Tanggal) : ℕ := t.year * 12 + (t.month - 1)

/-- Insertion of a key into an ascending list of keys. -/
def insertAsc (x : ℕ) : List ℕ → List ℕ
  | [] => [x]
  | y :: t => if x ≤ y then x :: y :: t else y :: insertAsc x t

/-- Ascending insertion sort (structural, so concrete group keys can be
evaluated). -/
def sortAsc (l : List ℕ) : List ℕ := l.foldr insertAsc []

/-- Group keys produced by a pandas `groupby`: the distinct keys in
ascending order. -/
def groupKeys (l : List ℕ) : List ℕ := sortAsc l.dedup

/-- Monthly zinc aggregation (`calculate_monthly_data`, lines 42-45):
for each month present in the ledger, the sums of `debet` and `kredit`.
Rows are `(period, debet_total, kredit_total)`. -/
def monthly_zinc (df : List MutasiRow) : List (ℕ × ℚ × ℚ) :=
  (groupKeys (df.map fun r => toPeriodM r.tanggal)).map fun p =>
    (p,
     ((df.filter fun r => toPeriodM r.tanggal == p).map fun r => r.debet).sum,
     ((df.filter fun r => toPeriodM r.tanggal == p).map fun r => r.kredit).sum)

/-- Monthly production aggregation (`calculate_monthly_data`, lines
48-59): per month, the three shift sums added into `total_production`.
Rows are `(period, total_production)`. -/
def monthly_prod (df : List ProduksiRow) : List (ℕ × ℚ) :=
  (groupKeys (df.map fun r => toPeriodM r.tanggal)).map fun p =>
    (p,
     ((df.filter fun r => toPeriodM r.tanggal == p).map fun r => r.kg_shift1).sum +
     ((df.filter fun r => toPeriodM r.tanggal == p).map fun r => r.kg_shift2).sum +
     ((df.filter fun r => toPeriodM r.tanggal == p).map fun r => r.kg_shift3).sum)

/-- Inner `pd.merge` on the period column (`calculate_monthly_data`,
lines 62-67): a zinc month is kept exactly when the production table has
the same period key, and the production total is attached.  Rows are
`(period, debet_total, kredit_total, total_production)`. -/
def merge_inner (mz : List (ℕ × ℚ × ℚ)) (mp : List (ℕ × ℚ)) :
    List (ℕ × ℚ × ℚ × ℚ) :=
  mz.filterMap fun row =>
    ((mp.find? fun q => q.1 == row.1).map fun q => (row.1, row.2.1, row.2.2, q.2))

/-- Embedding of `calculate_monthly_data` (lines 39-73).  The `except`
branch returns `None` only when a pandas operation raises; on well-typed
record lists none of the operations raises, in particular not on empty
input, so the result is always `some`. -/
def calculate_monthly_data (dfz : List MutasiRow) (dfp : List ProduksiRow) :
    Option (List (ℕ × ℚ × ℚ × ℚ)) :=
  some (merge_inner (monthly_zinc dfz) (monthly_prod dfp))

/-- Mean of the monthly `kredit` column, `monthly_data['kredit'].mean()`
(line 106). -/
noncomputable def avg_monthly_kredit (kredit : List ℝ) : ℝ :=
  kredit.sum / kredit.length

/-- Embedding of `monthly_data['kredit'].std()` (line 107): pandas uses
the sample convention `ddof=1`, i.e. `sqrt(Σ (x - mean)² / (n - 1))`,
and yields `NaN` (modelled as `none`) on a series of length below 2. -/
noncomputable def std_dev_kredit (kredit : List ℝ) : Option ℝ :=
  if kredit.length < 2 then none
  else some (Real.sqrt
    ((kredit.map fun x => (x - avg_monthly_kredit kredit) ^ 2).sum /
      ((kredit.length : ℝ) - 1)))

/-- Coefficient of variation `cv = (std_dev / mean) * 100` (line 108);
a `NaN` standard deviation propagates. -/
noncomputable def cv_kredit (kredit : List ℝ) : Option ℝ :=
  (std_dev_kredit kredit).map fun s => s / avg_monthly_kredit kredit * 100

/-- Sample standard deviation written out as in the specification of
Diagnostics: square root of the sum of squared deviations from the mean
divided by `n - 1` (the sample, not population, convention). -/
noncomputable def sample_std_spec (l : List ℝ) : ℝ :=
  Real.sqrt ((l.map fun x => (x - avg_monthly_kredit l) ^ 2).sum /
    ((l.length : ℝ) - 1))

/-- Tuple of the basic metrics computed at lines 106-108 of `main`;
`main` computes them unconditionally and keeps rendering with them,
there is no error path for short series. -/
noncomputable def basic_metrics (kredit : List ℝ) : ℝ × Option ℝ × Option ℝ :=
  (avg_monthly_kredit kredit, std_dev_kredit kredit, cv_kredit kredit)

/-- Non-seasonal SARIMAX order fixed at line 79: `(p, d, q) = (1, 1, 1)`. -/
def sarima_order : ℕ × ℕ × ℕ := (1, 1, 1)

/-- Seasonal SARIMAX order fixed at line 80:
`(P, D, Q, s) = (1, 1, 1, 12)`. -/
def sarima_seasonal_order : ℕ × ℕ × ℕ × ℕ := (1, 1, 1, 12)

/-- Result of the library calls inside the `try` block of
`sarima_forecast`: the 12 predicted means together with the 12 rows of
`conf_int()`, or `none` when the library raised (the `except` branch
returns `(None, None)`). -/
def SarimaxOutcome : Type := Option (List ℚ × List (ℚ × ℚ))

/-- Embedding of `sarima_forecast` (lines 76-88).  The statsmodels fit
is an oracle parameter `sarimax_fit`; the Python function applies it to
the series and returns whatever it produces, with no validation of the
series (in particular no check of the observation count against the
seasonal period). -/
def sarima_forecast (data : List ℚ)
    (sarimax_fit : List ℚ → SarimaxOutcome) : SarimaxOutcome :=
  sarimax_fit data

/-- Interval rows of `results.get_forecast(periods).conf_int()`: each
row is `mean ± z · se` where `z` is the two-sided normal quantile of
the (default 95%) confidence level and `se ≥ 0` the forecast standard
error. -/
def conf_int_rows (means ses : List ℚ) (z : ℚ) : List (ℚ × ℚ) :=
  List.zipWith (fun m s => (m - z * s, m + z * s)) means ses

/-- Forecast periods of `forecast_df` (line 400):
`pd.date_range(start='2025-01-01', periods=12, freq='M')`, i.e. the
fixed months January 2025 … December 2025, independent of the data. -/
def forecast_tanggal_2025 : List ℕ :=
  (List.range 12).map fun i => 2025 * 12 + i

/-- Period column that `main` attaches to the forecast table, as a
function of the fitted monthly data: the code ignores the data and uses
the hard-coded 2025 range. -/
def forecast_df_tanggal (_monthly : List (ℕ × ℚ × ℚ × ℚ)) : List ℕ :=
  forecast_tanggal_2025

/-- Last period of the historical monthly series (the series fitted at
line 394-395 is indexed by the merged table's period column). -/
def last_hist_period (monthly : List (ℕ × ℚ × ℚ × ℚ)) : ℕ :=
  (monthly.map Prod.fst).getLastD 0

/-- The `forecast_df` table of lines 399-404: rows pair the hard-coded
2025 periods with the forecast value and the two `conf_int` columns.
A row is `(tanggal, forecast, (lower_bound, upper_bound))`. -/
def forecast_df (fc : List ℚ) (ci : List (ℚ × ℚ)) :
    List (ℕ × ℚ × ℚ × ℚ) :=
  List.zip forecast_tanggal_2025 (List.zip fc ci)

/-- Column `forecast` of the forecast table. -/
def forecast_col (df : List (ℕ × ℚ × ℚ × ℚ)) : List ℚ :=
  df.map fun r => r.2.1

/-- Column `lower_bound` of the forecast table. -/
def lower_bound_col (df : List (ℕ × ℚ × ℚ × ℚ)) : List ℚ :=
  df.map fun r => r.2.2.1

/-- Column `upper_bound` of the forecast table. -/
def upper_bound_col (df : List (ℕ × ℚ × ℚ × ℚ)) : List ℚ :=
  df.map fun r => r.2.2.2

/-- Pandas column mean `Series.mean()` over an exact rational column. -/
def col_mean (l : List ℚ) : ℚ := l.sum / l.length

/-- Stock recommendation report of lines 460-474 of `main`. -/
structure StokRekomendasi where
  stok_minimal : ℚ
  stok_optimal : ℚ
  stok_maksimal : ℚ
  reorder_point : ℚ
  kuantitas_pemesanan : ℚ
  safety_stock : ℚ
deriving DecidableEq, Repr

/-- Embedding of the recommendation block (lines 460-474): the three
levels are the means of the `lower_bound`, `forecast` and `upper_bound`
columns, reorder point and order quantity are hard-coded constants, and
safety stock is `forecast_df['lower_bound'].mean() * 0.2`. -/
def rekomendasi_stok (df : List (ℕ × ℚ × ℚ × ℚ)) : StokRekomendasi :=
  { stok_minimal := col_mean (lower_bound_col df)
    stok_optimal := col_mean (forecast_col df)
    stok_maksimal := col_mean (upper_bound_col df)
    reorder_point := 15000
    kuantitas_pemesanan := 40000
    safety_stock := col_mean (lower_bound_col df) * 0.2 }

/-- Consumption-variability interpretation (line 488 of `main`):
strict thresholds at 15 and 25 on the coefficient of variation. -/
def interpretasi_konsumsi (cv : ℚ) : String :=
  if cv < 15 then "Konsumsi zinc stabil"
  else if cv < 25 then "Konsumsi zinc cukup variabel"
  else "Konsumsi zinc sangat variabel"

/-- Advisory warning of lines 496-504 of `main`: `st.warning` is shown
exactly when `cv > 25`. -/
def warning_variabilitas (cv : ℚ) : Bool := 25 < cv

/-! ## Helper lemmas -/

/-- Membership is preserved by ascending insertion. -/
lemma mem_insertAsc {x p : ℕ} : ∀ {l : List ℕ}, p ∈ insertAsc x l ↔ p = x ∨ p ∈ l
  | [] => by simp [insertAsc]
  | y :: t => by
    unfold insertAsc
    by_cases h : x ≤ y
    · simp [h]
    · simp only [if_neg h, List.mem_cons, mem_insertAsc (l := t)]
      tauto

/-- Membership is preserved by the insertion sort. -/
lemma mem_sortAsc {p : ℕ} : ∀ {l : List ℕ}, p ∈ sortAsc l ↔ p ∈ l
  | [] => Iff.rfl
  | y :: t => by
    show p ∈ insertAsc y (sortAsc t) ↔ _
    rw [mem_insertAsc, mem_sortAsc (l := t)]
    simp

/-- Membership in pandas group keys is membership in the key column. -/
lemma mem_groupKeys {l : List ℕ} {p : ℕ} : p ∈ groupKeys l ↔ p ∈ l := by
  rw [groupKeys, mem_sortAsc, List.mem_dedup]

/-- A period appears as a row of the monthly zinc table exactly when some
ledger record falls in that month. -/
lemma exists_row_monthly_zinc (df : List MutasiRow) (p : ℕ) :
    (∃ row ∈ monthly_zinc df, row.1 = p) ↔ ∃ r ∈ df, toPeriodM r.tanggal = p := by
  unfold monthly_zinc
  constructor
  · rintro ⟨row, hrow, hp⟩
    rcases List.mem_map.mp hrow with ⟨q, hq, rfl⟩
    rcases List.mem_map.mp (mem_groupKeys.mp hq) with ⟨r, hr, hrq⟩
    exact ⟨r, hr, by rw [hrq]; exact hp⟩
  · rintro ⟨r, hr, rfl⟩
    refine ⟨_, List.mem_map.mpr ⟨toPeriodM r.tanggal, ?_, rfl⟩, rfl⟩
    exact mem_groupKeys.mpr (List.mem_map.mpr ⟨r, hr, rfl⟩)

/-- A period appears as a row of the monthly production table exactly
when some production record falls in that month. -/
lemma exists_row_monthly_prod (df : List ProduksiRow) (p : ℕ) :
    (∃ row ∈ monthly_prod df, row.1 = p) ↔ ∃ r ∈ df, toPeriodM r.tanggal = p := by
  unfold monthly_prod
  constructor
  · rintro ⟨row, hrow, hp⟩
    rcases List.mem_map.mp hrow with ⟨q, hq, rfl⟩
    rcases List.mem_map.mp (mem_groupKeys.mp hq) with ⟨r, hr, hrq⟩
    exact ⟨r, hr, by rw [hrq]; exact hp⟩
  · rintro ⟨r, hr, rfl⟩
    refine ⟨_, List.mem_map.mpr ⟨toPeriodM r.tanggal, ?_, rfl⟩, rfl⟩
    exact mem_groupKeys.mpr (List.mem_map.mpr ⟨r, hr, rfl⟩)

/-- Zipping a list with a `zipWith` image of itself pairs elements at
equal indices. -/
lemma zip_zipWith_pair {α β γ : Type} (f : α → β → γ) :
    ∀ (l1 : List α) (l2 : List β),
      List.zip l1 (List.zipWith f l1 l2) =
        List.zipWith (fun a b => (a, f a b)) l1 l2
  | [], _ => rfl
  | _ :: _, [] => rfl
  | a :: t1, b :: t2 => by
    simp only [List.zipWith_cons_cons, List.zip_cons_cons]
    rw [zip_zipWith_pair f t1 t2]

/-- Every element of a `zipWith` comes from a pair of elements of the
two lists. -/
lemma exists_of_mem_zipWith {α β γ : Type} {f : α → β → γ} {x : γ} :
    ∀ {l1 : List α} {l2 : List β}, x ∈ List.zipWith f l1 l2 →
      ∃ a b, a ∈ l1 ∧ b ∈ l2 ∧ x = f a b
  | [], _, h => by simp at h
  | _ :: _, [], h => by simp at h
  | a :: t1, b :: t2, h => by
    rcases List.mem_cons.mp h with h | h
    · exact ⟨a, b, List.mem_cons_self .., List.mem_cons_self .., h⟩
    · rcases exists_of_mem_zipWith h with ⟨a2, b2, h1, h2, h3⟩
      exact ⟨a2, b2, List.mem_cons_of_mem _ h1, List.mem_cons_of_mem _ h2, h3⟩

/-- Leap-year status is unchanged by the century shift applied to the
two-digit-parsed years 1969-1999. -/
lemma leap_shift : ∀ yy, yy < 100 → 69 ≤ yy →
    isLeapYear (1900 + yy) = isLeapYear (2000 + yy) := by decide

/-- Month lengths are unchanged by the century shift applied to the
two-digit-parsed years 1969-1999. -/
lemma daysInMonth_shift (yy m : ℕ) (h1 : yy < 100) (h2 : 69 ≤ yy) :
    daysInMonth (1900 + yy) m = daysInMonth (2000 + yy) m := by
  unfold daysInMonth
  rw [leap_shift yy h1 h2]

/-! ## Claims -/

/-- C5 counterexample: at a coefficient of variation of exactly 25 the
code classifies the consumption as highly variable
("Konsumsi zinc sangat variabel") but does not raise the advisory
warning, so the warning is not raised exactly when the classification is
highly variable. -/
theorem C5_counterexample_cv_25 :
    interpretasi_konsumsi 25 = "Konsumsi zinc sangat variabel" ∧
    warning_variabilitas 25 = false := by
  constructor
  · decide
  · decide

/-- C5 (amended): `cv < 15` is classified stable, `15 ≤ cv < 25`
moderately variable, `25 ≤ cv` highly variable, and the advisory
warning is raised exactly when `cv > 25` strictly (so the boundary value
`cv = 25` is classified highly variable without a warning). -/
theorem C5_amended_thresholds (cv : ℚ) :
    (cv < 15 → interpretasi_konsumsi cv = "Konsumsi zinc stabil") ∧
    (15 ≤ cv → cv < 25 → interpretasi_konsumsi cv = "Konsumsi zinc cukup variabel") ∧
    (25 ≤ cv → interpretasi_konsumsi cv = "Konsumsi zinc sangat variabel") ∧
    (warning_variabilitas cv = true ↔ 25 < cv) := by
  refine ⟨?_, ?_, ?_, ?_⟩
  · intro h
    simp [interpretasi_konsumsi, h]
  · intro h1 h2
    simp [interpretasi_konsumsi, h2, not_lt.mpr h1]
  · intro h
    have h15 : ¬ cv < 15 := not_lt.mpr (le_trans (by norm_num) h)
    have h25 : ¬ cv < 25 := not_lt.mpr h
    simp [interpretasi_konsumsi, h15, h25]
  · simp [warning_variabilitas]

/-- C5 witness: at `cv = 30` the classification is highly variable and
the warning is raised. -/
theorem C5_amended_thresholds_witness :
    25 ≤ (30 : ℚ) ∧
    interpretasi_konsumsi 30 = "Konsumsi zinc sangat variabel" ∧
    warning_variabilitas 30 = true :=
  ⟨by norm_num, (C5_amended_thresholds 30).2.2.1 (by norm_num),
    (C5_amended_thresholds 30).2.2.2.mpr (by norm_num)⟩

/-- C8: on empty ledgers `calculate_monthly_data` does not fail; the
`groupby`/`merge` chain silently returns an empty monthly table (the
`except` branch never fires), so no `AggregationError`-like failure
signal is produced for empty input. -/
theorem C8_empty_input_no_error :
    calculate_monthly_data [] [] = some [] := by
  decide

/-- C9: on a one-month series the metrics of lines 106-108 are still
produced and rendered: the mean is the single value, while the sample
standard deviation and the coefficient of variation are pandas `NaN`
(modelled `none`) — silently undefined, neither a `StatisticsError`
failure signal nor a zero. -/
theorem C9_short_series_nan_not_error :
    basic_metrics [100] = (100, none, none) ∧
    std_dev_kredit [100] ≠ some 0 := by
  have hstd : std_dev_kredit [100] = none := by
    simp [std_dev_kredit]
  refine ⟨?_, by simp [hstd]⟩
  refine Prod.ext ?_ (Prod.ext ?_ ?_)
  · simp [basic_metrics, avg_monthly_kredit]
  · simpa [basic_metrics] using hstd
  · simp [basic_metrics, cv_kredit, hstd]

/-- C2: `sarima_forecast` applies the statsmodels fit to any series with
no validation of the observation count against the seasonal period 12:
a 12-observation series (fewer than 13) is forwarded unchecked, and
whatever the library produces — including a numerically degenerate
forecast — is returned as is; no `ModelFitError`-like guard exists. -/
theorem C2_no_observation_count_guard :
    (List.replicate 12 (1000 : ℚ)).length < 13 ∧
    sarima_seasonal_order.2.2.2 = 12 ∧
    ∀ fit : List ℚ → SarimaxOutcome,
      sarima_forecast (List.replicate 12 1000) fit =
        fit (List.replicate 12 1000) :=
  ⟨by simp, rfl, fun _ => rfl⟩

/-- C3: the merged monthly table produced by `calculate_monthly_data`
contains a period exactly when both a mutation-ledger record and a
production-ledger record fall in that calendar month (inner-join
semantics); a period present in only one ledger is absent. -/
theorem C3_inner_join_periods (dfz : List MutasiRow) (dfp : List ProduksiRow)
    (p : ℕ) :
    (∃ row ∈ merge_inner (monthly_zinc dfz) (monthly_prod dfp), row.1 = p) ↔
      ((∃ r ∈ dfz, toPeriodM r.tanggal = p) ∧
       (∃ r ∈ dfp, toPeriodM r.tanggal = p)) := by
  rw [← exists_row_monthly_zinc, ← exists_row_monthly_prod]
  unfold merge_inner
  constructor
  · rintro ⟨row, hrow, hp⟩
    rcases List.mem_filterMap.mp hrow with ⟨zrow, hz, hsome⟩
    rcases Option.map_eq_some'.mp hsome with ⟨q, hfind, hq⟩
    have hq1 : q.1 = zrow.1 := by
      have := List.find?_some hfind
      simpa using this
    have hrow1 : row.1 = zrow.1 := by rw [← hq]
    constructor
    · exact ⟨zrow, hz, by rw [← hrow1]; exact hp⟩
    · exact ⟨q, List.mem_of_find?_eq_some hfind, by rw [hq1, ← hrow1]; exact hp⟩
  · rintro ⟨⟨zrow, hz, hzp⟩, ⟨prow, hpr, hpp⟩⟩
    have hfind : ((monthly_prod dfp).find? fun q => q.1 == zrow.1).isSome := by
      rw [List.find?_isSome]
      exact ⟨prow, hpr, by simp [hpp, hzp]⟩
    rcases Option.isSome_iff_exists.mp hfind with ⟨q, hq⟩
    exact ⟨(zrow.1, zrow.2.1, zrow.2.2, q.2),
      List.mem_filterMap.mpr ⟨zrow, hz, by rw [hq]; rfl⟩, hzp⟩

/-- C1 counterexample: for a history consisting of a single month,
June 2024 (period code `2024 * 12 + 5 = 24293`), the monthly table's
last period is 24293, yet the forecast table's periods are the
hard-coded January-December 2025 range, which is not the 12 contiguous
months immediately following June 2024. -/
theorem C1_counterexample_mid_year_history :
    calculate_monthly_data [⟨⟨2024, 6, 15⟩, 0, 100⟩] [⟨⟨2024, 6, 15⟩, 1, 1, 1⟩] =
      some [(24293, 0, 100, 3)] ∧
    last_hist_period [(24293, 0, 100, 3)] = 24293 ∧
    forecast_df_tanggal [(24293, 0, 100, 3)] = forecast_tanggal_2025 ∧
    forecast_tanggal_2025 ≠ (List.range 12).map fun i => 24293 + 1 + i := by
  refine ⟨?_, rfl, rfl, by decide⟩
  norm_num [calculate_monthly_data, monthly_zinc, monthly_prod, merge_inner,
    groupKeys, sortAsc, insertAsc, toPeriodM, List.dedup, List.find?,
    List.filterMap_cons, List.filterMap_nil]

/-- C1 (amended): the periods attached to the 12 forecast points are
the fixed months January 2025 through December 2025 irrespective of the
fitted monthly series, and they form the contiguous months immediately
following the last historical period exactly when that last period is
December 2024 (period code 24299). -/
theorem C1_amended_forecast_periods (monthly : List (ℕ × ℚ × ℚ × ℚ)) (p : ℕ) :
    forecast_df_tanggal monthly = forecast_tanggal_2025 ∧
    ((forecast_tanggal_2025 = (List.range 12).map fun i => p + 1 + i) ↔
      p = 24299) := by
  refine ⟨rfl, ?_, ?_⟩
  · intro h
    have h0 := congrArg (fun l => l.headD 0) h
    simp only [forecast_tanggal_2025, List.range_succ_eq_map, List.map_cons,
      List.headD_cons] at h0
    omega
  · rintro rfl
    decide

/-- C10: the loader parses mutation-ledger dates with a four-digit year
and leaves them unchanged, parses production-ledger dates with a
two-digit year (pandas pivot: `yy ≤ 68` becomes `2000 + yy`, otherwise
`1900 + yy`), and shifts a parsed production date forward by exactly
100 years (same month and day) exactly when its year is before 2000. -/
theorem C10_century_shift (d m yy y4 : ℕ) (hyy : yy ≤ 99)
    (hd : d ≤ daysInMonth (parse_dmy2 d m yy).year m) :
    load_prod_tanggal d m yy =
      (if (parse_dmy2 d m yy).year < 2000
        then ⟨(parse_dmy2 d m yy).year + 100, m, d⟩
        else parse_dmy2 d m yy) ∧
    load_zinc_tanggal d m y4 = ⟨y4, m, d⟩ := by
  refine ⟨?_, rfl⟩
  by_cases hc : yy ≤ 68
  · have hy : ¬ (parse_dmy2 d m yy).year < 2000 := by
      simp only [parse_dmy2, if_pos hc]
      omega
    rw [load_prod_tanggal, if_neg hy, if_neg hy]
  · have h69 : 69 ≤ yy := by omega
    have hyr : (parse_dmy2 d m yy).year = 1900 + yy := by
      simp only [parse_dmy2, if_neg hc]
    have hy : (parse_dmy2 d m yy).year < 2000 := by omega
    rw [load_prod_tanggal, if_pos hy, if_pos hy]
    show dateOffsetYears 100 (parse_dmy2 d m yy) = _
    rw [dateOffsetYears]
    have hmm : (parse_dmy2 d m yy).month = m := rfl
    have hdd : (parse_dmy2 d m yy).day = d := rfl
    rw [hmm, hdd, hyr]
    have hshift : daysInMonth (1900 + yy + 100) m = daysInMonth (1900 + yy) m := by
      have he : 1900 + yy + 100 = 2000 + yy := by omega
      rw [he, ← daysInMonth_shift yy m (by omega) h69]
    rw [hshift]
    have hmin : min d (daysInMonth (1900 + yy) m) = d :=
      min_eq_left (by rw [← hyr]; exact hd)
    rw [hmin]

/-- C10 witness: the production date 15/06/70 parses to 15 June 1970 and
is shifted to 15 June 2070, while the mutation date 15/06/2023 is kept
as written. -/
theorem C10_century_shift_witness :
    (70 : ℕ) ≤ 99 ∧
    15 ≤ daysInMonth (parse_dmy2 15 6 70).year 6 ∧
    load_prod_tanggal 15 6 70 =
      (if (parse_dmy2 15 6 70).year < 2000
        then ⟨(parse_dmy2 15 6 70).year + 100, 6, 15⟩
        else parse_dmy2 15 6 70) ∧
    load_zinc_tanggal 15 6 2023 = ⟨2023, 6, 15⟩ :=
  ⟨by decide, by decide, C10_century_shift 15 6 70 2023 (by decide) (by decide)⟩

/-- C4: with the statsmodels interval semantics `mean ± z·se` (default
95% level, so `z ≥ 0`) and nonnegative standard errors, every row of the
forecast table satisfies `lower_bound ≤ forecast ≤ upper_bound`, and
with the 12 predicted means and 12 interval rows returned for the
default horizon the table has exactly 12 rows. -/
theorem C4_bounds_and_horizon (means ses : List ℚ) (z : ℚ)
    (hm : means.length = 12) (hs : ses.length = 12)
    (hse : ∀ s ∈ ses, 0 ≤ s) (hz : 0 ≤ z) :
    (forecast_df means (conf_int_rows means ses z)).length = 12 ∧
    ∀ row ∈ forecast_df means (conf_int_rows means ses z),
      row.2.2.1 ≤ row.2.1 ∧ row.2.1 ≤ row.2.2.2 := by
  constructor
  · simp [forecast_df, conf_int_rows, forecast_tanggal_2025, hm, hs]
  · intro row hrow
    obtain ⟨t, q⟩ := row
    unfold forecast_df at hrow
    have h2 : q ∈ List.zip means (conf_int_rows means ses z) :=
      (List.of_mem_zip hrow).2
    rw [conf_int_rows, zip_zipWith_pair] at h2
    rcases exists_of_mem_zipWith h2 with ⟨m, s, hm2, hs2, hq⟩
    subst hq
    have hzs : 0 ≤ z * s := mul_nonneg hz (hse s hs2)
    refine ⟨?_, ?_⟩
    · show m - z * s ≤ m
      linarith
    · show m ≤ m + z * s
      linarith

/-- C4 witness: twelve means of 100 with standard errors 1 and `z = 2`
give a 12-row table whose rows all satisfy the bound ordering. -/
theorem C4_bounds_and_horizon_witness :
    (List.replicate 12 (100 : ℚ)).length = 12 ∧ 0 ≤ (2 : ℚ) ∧
    ((forecast_df (List.replicate 12 100)
        (conf_int_rows (List.replicate 12 100) (List.replicate 12 1) 2)).length = 12 ∧
      ∀ row ∈ forecast_df (List.replicate 12 100)
          (conf_int_rows (List.replicate 12 100) (List.replicate 12 1) 2),
        row.2.2.1 ≤ row.2.1 ∧ row.2.1 ≤ row.2.2.2) :=
  ⟨rfl, by norm_num,
    C4_bounds_and_horizon (List.replicate 12 100) (List.replicate 12 1) 2 rfl rfl
      (fun s hs => by rw [List.eq_of_mem_replicate hs]; norm_num) (by norm_num)⟩

/-- Column extraction of the forecast table recovers the underlying
forecast list and the two interval columns when the lists have the
expected length 12. -/
lemma forecast_df_cols (fc : List ℚ) (ci : List (ℚ × ℚ))
    (hf : fc.length = 12) (hc : ci.length = 12) :
    forecast_col (forecast_df fc ci) = fc ∧
    lower_bound_col (forecast_df fc ci) = ci.map Prod.fst ∧
    upper_bound_col (forecast_df fc ci) = ci.map Prod.snd := by
  have hP : forecast_tanggal_2025.length = 12 := by
    simp [forecast_tanggal_2025]
  have hzl : (List.zip fc ci).length = 12 := by
    rw [List.length_zip, hf, hc]
    rfl
  have h1 : (forecast_df fc ci).map Prod.snd = List.zip fc ci := by
    unfold forecast_df
    exact List.map_snd_zip _ _ (by rw [hzl, hP])
  have h2 : (List.zip fc ci).map Prod.fst = fc :=
    List.map_fst_zip _ _ (by rw [hf, hc])
  have h3 : (List.zip fc ci).map Prod.snd = ci :=
    List.map_snd_zip _ _ (by rw [hf, hc])
  refine ⟨?_, ?_, ?_⟩
  · show (forecast_df fc ci).map (fun r => r.2.1) = fc
    calc (forecast_df fc ci).map (fun r => r.2.1)
        = ((forecast_df fc ci).map Prod.snd).map Prod.fst := by
          rw [List.map_map]
          rfl
      _ = fc := by rw [h1, h2]
  · show (forecast_df fc ci).map (fun r => r.2.2.1) = ci.map Prod.fst
    calc (forecast_df fc ci).map (fun r => r.2.2.1)
        = (((forecast_df fc ci).map Prod.snd).map Prod.snd).map Prod.fst := by
          rw [List.map_map, List.map_map]
          rfl
      _ = ci.map Prod.fst := by rw [h1, h3]
  · show (forecast_df fc ci).map (fun r => r.2.2.2) = ci.map Prod.snd
    calc (forecast_df fc ci).map (fun r => r.2.2.2)
        = (((forecast_df fc ci).map Prod.snd).map Prod.snd).map Prod.snd := by
          rw [List.map_map, List.map_map]
          rfl
      _ = ci.map Prod.snd := by rw [h1, h3]

/-- C6: the recommendation block returns the mean of the lower bounds as
minimum level, the mean of the point forecasts as optimal level, the
mean of the upper bounds as maximum level, and a safety stock equal to
the minimum level times 0.2. -/
theorem C6_stock_levels_means (fc : List ℚ) (ci : List (ℚ × ℚ))
    (hf : fc.length = 12) (hc : ci.length = 12) :
    (rekomendasi_stok (forecast_df fc ci)).stok_minimal =
      col_mean (ci.map Prod.fst) ∧
    (rekomendasi_stok (forecast_df fc ci)).stok_optimal = col_mean fc ∧
    (rekomendasi_stok (forecast_df fc ci)).stok_maksimal =
      col_mean (ci.map Prod.snd) ∧
    (rekomendasi_stok (forecast_df fc ci)).safety_stock =
      (rekomendasi_stok (forecast_df fc ci)).stok_minimal * 0.2 := by
  rcases forecast_df_cols fc ci hf hc with ⟨h1, h2, h3⟩
  refine ⟨?_, ?_, ?_, rfl⟩
  · show col_mean (lower_bound_col (forecast_df fc ci)) = _
    rw [h2]
  · show col_mean (forecast_col (forecast_df fc ci)) = _
    rw [h1]
  · show col_mean (upper_bound_col (forecast_df fc ci)) = _
    rw [h3]

/-- C6 witness: twelve forecasts of 5 with interval rows `(3, 8)`. -/
theorem C6_stock_levels_means_witness :
    (List.replicate 12 (5 : ℚ)).length = 12 ∧
    ((rekomendasi_stok (forecast_df (List.replicate 12 5)
        (List.replicate 12 (3, 8)))).stok_minimal =
      col_mean ((List.replicate 12 ((3 : ℚ), (8 : ℚ))).map Prod.fst) ∧
    (rekomendasi_stok (forecast_df (List.replicate 12 5)
        (List.replicate 12 (3, 8)))).stok_optimal =
      col_mean (List.replicate 12 5) ∧
    (rekomendasi_stok (forecast_df (List.replicate 12 5)
        (List.replicate 12 (3, 8)))).stok_maksimal =
      col_mean ((List.replicate 12 ((3 : ℚ), (8 : ℚ))).map Prod.snd) ∧
    (rekomendasi_stok (forecast_df (List.replicate 12 5)
        (List.replicate 12 (3, 8)))).safety_stock =
      (rekomendasi_stok (forecast_df (List.replicate 12 5)
        (List.replicate 12 (3, 8)))).stok_minimal * 0.2) :=
  ⟨rfl, C6_stock_levels_means (List.replicate 12 5) (List.replicate 12 (3, 8)) rfl rfl⟩

/-- C7: on a series of at least two points the coefficient of variation
of lines 106-108 equals `(sample standard deviation / mean) × 100`, with
the sample (`n - 1`) convention, and a series with mean 10000 and sample
standard deviation 1500 gets CV = 15. -/
theorem C7_cv_sample_convention (l : List ℝ) (h : 2 ≤ l.length) :
    cv_kredit l = some (sample_std_spec l / avg_monthly_kredit l * 100) ∧
    (avg_monthly_kredit l = 10000 → sample_std_spec l = 1500 →
      cv_kredit l = some 15) := by
  have hlen : ¬ l.length < 2 := by omega
  have hstd : std_dev_kredit l = some (sample_std_spec l) := by
    rw [std_dev_kredit, if_neg hlen]
    rfl
  constructor
  · rw [cv_kredit, hstd]
    rfl
  · intro hmean hsample
    rw [cv_kredit, hstd, Option.map_some', hsample, hmean]
    norm_num

/-- C7 witness: the two-point series `[1, 3]`. -/
theorem C7_cv_sample_convention_witness :
    2 ≤ ([1, 3] : List ℝ).length ∧
    cv_kredit [1, 3] =
      some (sample_std_spec [1, 3] / avg_monthly_kredit [1, 3] * 100) :=
  ⟨by norm_num, (C7_cv_sample_convention [1, 3] (by norm_num)).1⟩
